import Mathlib

/-!
Verification of the Smart Attendance System core.

The embedding below follows the repository's source:
* calculateDistance / verifyLocation from the location service
  (Haversine distance in whole meters, inclusive radius comparison);
* the POST /api/attendance/session handler (createSession below), which
  validates presence of sessionId/courseName/teacherId/location and then
  writes the session document with doc(sessionId).set(...);
* the POST /api/attendance/mark handler (markAttendance below), which
  looks the session up, checks expiry (now > new Date(expiresAt)),
  verifies the geofence with radius session.location.radiusMeters || 50,
  queries the attendance collection for an existing (sessionId, studentId)
  record, and appends a new record when none exists.

JavaScript numbers are modelled as real numbers; a JavaScript field that
may be absent is an Option; Date values are real-valued timestamps, with
the absent/invalid date (whose comparisons are all false) as none.
-/

namespace SmartAttendance

/-- Math.round of JavaScript: round half toward positive infinity. -/
noncomputable def jsRound (x : ℝ) : ℤ := ⌊x + 1 / 2⌋

/-- Math.atan2 of JavaScript: the argument of the complex number x + y·i. -/
noncomputable def atan2 (y x : ℝ) : ℝ := Complex.arg ⟨x, y⟩

/-- Haversine a-term of calculateDistance (locationService.js):
sin²(Δφ/2) + cos φ1 · cos φ2 · sin²(Δλ/2), with φ and λ in radians. -/
noncomputable def haversineA (lat1 lon1 lat2 lon2 : ℝ) : ℝ :=
  Real.sin ((lat2 - lat1) * Real.pi / 180 / 2) *
      Real.sin ((lat2 - lat1) * Real.pi / 180 / 2) +
    Real.cos (lat1 * Real.pi / 180) * Real.cos (lat2 * Real.pi / 180) *
      Real.sin ((lon2 - lon1) * Real.pi / 180 / 2) *
      Real.sin ((lon2 - lon1) * Real.pi / 180 / 2)

/-- calculateDistance (locationService.js): Haversine great-circle distance on a
sphere of radius 6371000 m, rounded to the nearest whole meter. -/
noncomputable def calculateDistance (lat1 lon1 lat2 lon2 : ℝ) : ℤ :=
  jsRound (6371000 *
    (2 * atan2 (Real.sqrt (haversineA lat1 lon1 lat2 lon2))
      (Real.sqrt (1 - haversineA lat1 lon1 lat2 lon2))))

/-- Result object of verifyLocation (locationService.js). -/
structure LocationCheck where
  valid : Bool
  distance : ℤ
  maxDistance : ℝ

/-- verifyLocation (locationService.js): valid ↔ distance ≤ maxDistance. -/
noncomputable def verifyLocation (studentLat studentLon classLat classLon maxDistance : ℝ) :
    LocationCheck :=
  { valid := decide ((calculateDistance studentLat studentLon classLat classLon : ℝ) ≤ maxDistance)
    distance := calculateDistance studentLat studentLon classLat classLon
    maxDistance := maxDistance }

/-- Claimant-reported position: request body field location. -/
structure Coord where
  latitude : ℝ
  longitude : ℝ

/-- Session geofence: the location object stored on a session document.
radiusMeters may be absent (the mark handler then applies its default). -/
structure GeoLocation where
  latitude : ℝ
  longitude : ℝ
  radiusMeters : Option ℝ

/-- Session document written by the session-creation handler. -/
structure SessionDoc where
  sessionId : String
  courseName : String
  teacherId : String
  teacherEmail : Option String
  location : GeoLocation
  expiresAt : Option ℝ
  createdAt : ℝ
  active : Bool

/-- Attendance document written by the mark handler. -/
structure AttendanceRecord where
  sessionId : String
  studentId : String
  studentEmail : Option String
  courseName : String
  markedAt : ℝ
  distance : ℤ
  latitude : ℝ
  longitude : ℝ

/-- Firestore state visible to the two handlers: the sessions collection is
keyed by document id, the attendance collection is a bag of records (add
creates a fresh auto-id document, so duplicates can coexist). -/
structure Store where
  sessions : String → Option SessionDoc
  attendance : List AttendanceRecord

/-- Overwriting write of doc(id).set(...) into the sessions collection. -/
def setDoc (sessions : String → Option SessionDoc) (id : String) (doc : SessionDoc) :
    String → Option SessionDoc :=
  fun k => if k = id then some doc else sessions k

/-- Store with no sessions and no attendance records. -/
def emptyStore : Store := { sessions := fun _ => none, attendance := [] }

/-- Request body of POST /api/attendance/session; every field may be absent. -/
structure SessionReq where
  sessionId : Option String
  courseName : Option String
  teacherId : Option String
  teacherEmail : Option String
  location : Option GeoLocation
  expiresAt : Option ℝ

/-- Request body of POST /api/attendance/mark; every field may be absent. -/
structure MarkReq where
  sessionId : Option String
  studentId : Option String
  studentEmail : Option String
  location : Option Coord

/-- Outcome of the session-creation handler. -/
inductive CreateResult where
  | missingFields
  | success (sessionId : String)
  deriving DecidableEq

/-- POST /api/attendance/session: reject when sessionId, courseName, teacherId
or location is absent, otherwise write the session document (an overwriting
set; expiresAt and teacherEmail are stored as given, active is set true). -/
def createSession (store : Store) (req : SessionReq) (now : ℝ) : CreateResult × Store :=
  match req.sessionId, req.courseName, req.teacherId, req.location with
  | some sid, some cn, some tid, some loc =>
    let doc : SessionDoc :=
      { sessionId := sid, courseName := cn, teacherId := tid,
        teacherEmail := req.teacherEmail, location := loc,
        expiresAt := req.expiresAt, createdAt := now, active := true }
    (CreateResult.success sid, { store with sessions := setDoc store.sessions sid doc })
  | _, _, _, _ => (CreateResult.missingFields, store)

/-- Outcome of the mark handler, one constructor per response branch. -/
inductive MarkOutcome where
  | missingFields
  | sessionNotFound
  | expired
  | outOfRange (distance : ℤ) (maxDistance : ℝ)
  | alreadyMarked
  | success (courseName : String) (distance : ℤ)

/-- Expiry test of the mark handler: now > new Date(session.expiresAt).
A comparison against the invalid date (absent expiresAt) is always false. -/
noncomputable def expiredCheck (now : ℝ) : Option ℝ → Bool
  | none => false
  | some t => decide (t < now)

/-- Radius used by the mark handler: session.location.radiusMeters || 50.
The JavaScript or-default replaces an absent or zero radius by 50 and keeps
every other number, negative numbers included. -/
noncomputable def allowedRadius (loc : GeoLocation) : ℝ :=
  match loc.radiusMeters with
  | none => 50
  | some r => if r = 0 then 50 else r

/-- Predicate of the duplicate query: sessionId and studentId both match. -/
def pairMatch (sid stid : String) (r : AttendanceRecord) : Bool :=
  r.sessionId == sid && r.studentId == stid

/-- Number of attendance records for one (sessionId, studentId) pair. -/
def pairCount (att : List AttendanceRecord) (sid stid : String) : ℕ :=
  (att.filter (pairMatch sid stid)).length

/-- Duplicate guard of the mark handler: the where-where query on the
attendance collection is non-empty. -/
def hasExisting (att : List AttendanceRecord) (sid stid : String) : Bool :=
  !(att.filter (pairMatch sid stid)).isEmpty

/-- Attendance document the mark handler appends (attendanceData). -/
def markRecord (sid stid : String) (se : Option String) (cn : String) (now : ℝ)
    (dist : ℤ) (loc : Coord) : AttendanceRecord :=
  { sessionId := sid, studentId := stid, studentEmail := se, courseName := cn,
    markedAt := now, distance := dist, latitude := loc.latitude, longitude := loc.longitude }

/-- Geofence check of the mark handler: verifyLocation on the claimant
position, the session origin and the defaulted radius. -/
noncomputable def locationCheckOf (loc : Coord) (session : SessionDoc) : LocationCheck :=
  verifyLocation loc.latitude loc.longitude session.location.latitude
    session.location.longitude (allowedRadius session.location)

/-- Steps 2-5 of the mark handler, once the session document is in hand:
expiry check, geofence check, duplicate check, then the single append. -/
noncomputable def markWithSession (att : List AttendanceRecord) (sid stid : String)
    (se : Option String) (loc : Coord) (session : SessionDoc) (now : ℝ) :
    MarkOutcome × List AttendanceRecord :=
  if expiredCheck now session.expiresAt then (MarkOutcome.expired, att)
  else if (locationCheckOf loc session).valid = false then
    (MarkOutcome.outOfRange (locationCheckOf loc session).distance
      (locationCheckOf loc session).maxDistance, att)
  else if hasExisting att sid stid then (MarkOutcome.alreadyMarked, att)
  else (MarkOutcome.success session.courseName (locationCheckOf loc session).distance,
    att ++ [markRecord sid stid se session.courseName now (locationCheckOf loc session).distance loc])

/-- POST /api/attendance/mark: presence validation, session lookup, then the
expiry/geofence/duplicate/record pipeline of markWithSession. Only the
attendance collection is ever written. -/
noncomputable def markAttendance (store : Store) (req : MarkReq) (now : ℝ) :
    MarkOutcome × Store :=
  match req.sessionId, req.studentId, req.location with
  | some sid, some stid, some loc =>
    match store.sessions sid with
    | none => (MarkOutcome.sessionNotFound, store)
    | some session =>
      let result := markWithSession store.attendance sid stid req.studentEmail loc session now
      (result.1, { store with attendance := result.2 })
  | _, _, _ => (MarkOutcome.missingFields, store)

/-- Sequential processing of a list of mark attempts, each with its time. -/
noncomputable def runMarks (store : Store) : List (MarkReq × ℝ) → Store
  | [] => store
  | (req, now) :: rest => runMarks (markAttendance store req now).2 rest

/-- At most one attendance record per (sessionId, studentId) pair. -/
def pairUnique (att : List AttendanceRecord) : Prop :=
  ∀ sid stid, pairCount att sid stid ≤ 1

/-- The Haversine a-term is symmetric in its two coordinates. -/
lemma haversineA_symm (lat1 lon1 lat2 lon2 : ℝ) :
    haversineA lat1 lon1 lat2 lon2 = haversineA lat2 lon2 lat1 lon1 := by
  unfold haversineA
  rw [show (lat1 - lat2) * Real.pi / 180 / 2 = -((lat2 - lat1) * Real.pi / 180 / 2) by ring,
      show (lon1 - lon2) * Real.pi / 180 / 2 = -((lon2 - lon1) * Real.pi / 180 / 2) by ring,
      Real.sin_neg, Real.sin_neg]
  ring

/-- The Haversine a-term vanishes on equal coordinates. -/
lemma haversineA_self (lat lon : ℝ) : haversineA lat lon lat lon = 0 := by
  unfold haversineA
  simp

/-- Math.atan2 of 0 and 1 is 0. -/
lemma atan2_zero_one : atan2 0 1 = 0 := by
  unfold atan2
  have h : (⟨1, 0⟩ : ℂ) = 1 := by
    apply Complex.ext <;> simp
  rw [h, Complex.arg_one]

/-- The distance function is symmetric. -/
lemma calculateDistance_symm (lat1 lon1 lat2 lon2 : ℝ) :
    calculateDistance lat1 lon1 lat2 lon2 = calculateDistance lat2 lon2 lat1 lon1 := by
  unfold calculateDistance
  rw [haversineA_symm]

/-- The distance from a coordinate to itself is 0. -/
lemma calculateDistance_self (lat lon : ℝ) : calculateDistance lat lon lat lon = 0 := by
  unfold calculateDistance
  rw [haversineA_self, Real.sqrt_zero, show (1 : ℝ) - 0 = 1 by norm_num, Real.sqrt_one,
    atan2_zero_one]
  unfold jsRound
  rw [show (6371000 : ℝ) * (2 * 0) + 1 / 2 = 1 / 2 by ring, Int.floor_eq_zero_iff]
  norm_num

/-- The distance function never returns a negative number of meters. -/
lemma calculateDistance_nonneg (lat1 lon1 lat2 lon2 : ℝ) :
    0 ≤ calculateDistance lat1 lon1 lat2 lon2 := by
  unfold calculateDistance jsRound
  rw [Int.le_floor]
  have harg : 0 ≤ atan2 (Real.sqrt (haversineA lat1 lon1 lat2 lon2))
      (Real.sqrt (1 - haversineA lat1 lon1 lat2 lon2)) := by
    unfold atan2
    exact Complex.arg_nonneg_iff.mpr (Real.sqrt_nonneg _)
  have hx : (0 : ℝ) ≤ 6371000 *
      (2 * atan2 (Real.sqrt (haversineA lat1 lon1 lat2 lon2))
        (Real.sqrt (1 - haversineA lat1 lon1 lat2 lon2))) := by
    have := mul_nonneg (by norm_num : (0 : ℝ) ≤ 2) harg
    exact mul_nonneg (by norm_num) this
  push_cast
  linarith

/-- C8: for every pair of coordinates with valid finite components, the
great-circle distance is symmetric, zero on equal arguments, and a
non-negative integer number of meters. -/
theorem C8_distance_symmetric_zero_nonneg (lat1 lon1 lat2 lon2 : ℝ)
    (h1 : -90 ≤ lat1 ∧ lat1 ≤ 90) (h2 : -180 ≤ lon1 ∧ lon1 ≤ 180)
    (h3 : -90 ≤ lat2 ∧ lat2 ≤ 90) (h4 : -180 ≤ lon2 ∧ lon2 ≤ 180) :
    calculateDistance lat1 lon1 lat2 lon2 = calculateDistance lat2 lon2 lat1 lon1 ∧
      calculateDistance lat1 lon1 lat1 lon1 = 0 ∧
      0 ≤ calculateDistance lat1 lon1 lat2 lon2 :=
  ⟨calculateDistance_symm lat1 lon1 lat2 lon2, calculateDistance_self lat1 lon1,
    calculateDistance_nonneg lat1 lon1 lat2 lon2⟩

/-- Witness for C8 at the concrete coordinates (0, 0) and (10, 20). -/
theorem C8_distance_symmetric_zero_nonneg_witness :
    calculateDistance 0 0 10 20 = calculateDistance 10 20 0 0 ∧
      calculateDistance 0 0 0 0 = 0 ∧ 0 ≤ calculateDistance 0 0 10 20 :=
  C8_distance_symmetric_zero_nonneg 0 0 10 20 (by norm_num) (by norm_num)
    (by norm_num) (by norm_num)

/-- C6: the geofence verifier admits exactly when the computed distance is at
most the radius; a distance exactly equal to the radius is admitted, a
distance of radius + 1 is rejected. -/
theorem C6_verify_inclusive_boundary (slat slon clat clon r : ℝ) :
    ((verifyLocation slat slon clat clon r).valid = true ↔
      ((verifyLocation slat slon clat clon r).distance : ℝ) ≤ r) ∧
    ((calculateDistance slat slon clat clon : ℝ) = r →
      (verifyLocation slat slon clat clon r).valid = true) ∧
    ((calculateDistance slat slon clat clon : ℝ) = r + 1 →
      (verifyLocation slat slon clat clon r).valid = false) := by
  refine ⟨by simp [verifyLocation], fun h => by simp [verifyLocation, h], fun h => ?_⟩
  simp only [verifyLocation, h, decide_eq_false_iff_not, not_le]
  linarith

/-- Absence of a duplicate is exactly a zero pair count. -/
lemma hasExisting_false_iff (att : List AttendanceRecord) (sid stid : String) :
    hasExisting att sid stid = false ↔ pairCount att sid stid = 0 := by
  simp [hasExisting, pairCount, List.isEmpty_iff, List.length_eq_zero]

/-- Appending one record adds one to the count of its own pair only. -/
lemma pairCount_append (att : List AttendanceRecord) (r : AttendanceRecord) (sid stid : String) :
    pairCount (att ++ [r]) sid stid =
      pairCount att sid stid + if pairMatch sid stid r then 1 else 0 := by
  unfold pairCount
  rw [List.filter_append, List.length_append]
  cases hp : pairMatch sid stid r <;> simp [hp]

/-- The duplicate predicate on a freshly built record tests the pair itself. -/
lemma pairMatch_markRecord (s t sid stid : String) (se : Option String) (cn : String)
    (now : ℝ) (dist : ℤ) (loc : Coord) :
    pairMatch s t (markRecord sid stid se cn now dist loc) = (sid == s && stid == t) := rfl

/-- After appending a record for a pair, the duplicate guard fires for it. -/
lemma hasExisting_append_markRecord (att : List AttendanceRecord) (sid stid : String)
    (se : Option String) (cn : String) (now : ℝ) (dist : ℤ) (loc : Coord) :
    hasExisting (att ++ [markRecord sid stid se cn now dist loc]) sid stid = true := by
  simp [hasExisting, pairMatch, markRecord, List.filter_append]

/-- The mark handler either leaves the attendance collection unchanged, or
appends exactly one record, for a pair that had no record, after its own
duplicate check passed. -/
lemma markAttendance_effect (store : Store) (req : MarkReq) (now : ℝ) :
    (markAttendance store req now).2.attendance = store.attendance ∨
    ∃ sid stid dist loc cn,
      req.sessionId = some sid ∧ req.studentId = some stid ∧
      hasExisting store.attendance sid stid = false ∧
      (markAttendance store req now).2.attendance =
        store.attendance ++ [markRecord sid stid req.studentEmail cn now dist loc] := by
  rcases req with ⟨os, ot, oe, ol⟩
  cases os with
  | none => exact Or.inl rfl
  | some sid =>
  cases ot with
  | none => exact Or.inl rfl
  | some stid =>
  cases ol with
  | none => exact Or.inl rfl
  | some loc =>
  cases hs : store.sessions sid with
  | none => left; simp [markAttendance, hs]
  | some session =>
  by_cases h1 : expiredCheck now session.expiresAt = true
  · left; simp [markAttendance, hs, markWithSession, h1]
  · by_cases h2 : (locationCheckOf loc session).valid = false
    · left; simp [markAttendance, hs, markWithSession, h1, h2]
    · by_cases h3 : hasExisting store.attendance sid stid = true
      · left; simp [markAttendance, hs, markWithSession, h1, h2, h3]
      · right
        refine ⟨sid, stid, (locationCheckOf loc session).distance, loc,
          session.courseName, rfl, rfl, by simpa using h3, ?_⟩
        simp [markAttendance, hs, markWithSession, h1, h2, h3]

/-- One mark attempt preserves the at-most-one-record-per-pair invariant. -/
lemma markAttendance_pairUnique (store : Store) (req : MarkReq) (now : ℝ)
    (h : pairUnique store.attendance) :
    pairUnique (markAttendance store req now).2.attendance := by
  rcases markAttendance_effect store req now with heq |
    ⟨sid, stid, dist, loc, cn, hsid, hstid, hdup, heq⟩
  · rw [heq]; exact h
  · rw [heq]
    intro s t
    rw [pairCount_append]
    by_cases hm : pairMatch s t (markRecord sid stid req.studentEmail cn now dist loc) = true
    · rw [pairMatch_markRecord, Bool.and_eq_true, beq_iff_eq, beq_iff_eq] at hm
      obtain ⟨hms, hmt⟩ := hm
      subst hms; subst hmt
      rw [(hasExisting_false_iff _ _ _).mp hdup]
      simp [pairMatch_markRecord]
    · rw [if_neg hm]
      simpa using h s t

/-- Every sequence of mark attempts preserves the pair-uniqueness invariant. -/
lemma runMarks_pairUnique (reqs : List (MarkReq × ℝ)) :
    ∀ (store : Store), pairUnique store.attendance →
      pairUnique (runMarks store reqs).attendance := by
  induction reqs with
  | nil => intro store h; exact h
  | cons p rest ih =>
    intro store h
    obtain ⟨req, now⟩ := p
    exact ih _ (markAttendance_pairUnique store req now h)

/-- A successful mark pins down every branch the handler took and the final
store: the request was complete, the session present and unexpired, the
geofence passed, the pair had no record, and exactly one record was added. -/
lemma markAttendance_success_inv (store : Store) (req : MarkReq) (now : ℝ)
    (cn : String) (d : ℤ)
    (h : (markAttendance store req now).1 = MarkOutcome.success cn d) :
    ∃ sid stid loc session,
      req.sessionId = some sid ∧ req.studentId = some stid ∧ req.location = some loc ∧
      store.sessions sid = some session ∧
      expiredCheck now session.expiresAt = false ∧
      (locationCheckOf loc session).valid = true ∧
      hasExisting store.attendance sid stid = false ∧
      cn = session.courseName ∧ d = (locationCheckOf loc session).distance ∧
      (markAttendance store req now).2 =
        { store with attendance := store.attendance ++
            [markRecord sid stid req.studentEmail session.courseName now
              (locationCheckOf loc session).distance loc] } := by
  rcases req with ⟨os, ot, oe, ol⟩
  cases os with
  | none => simp [markAttendance] at h
  | some sid =>
  cases ot with
  | none => simp [markAttendance] at h
  | some stid =>
  cases ol with
  | none => simp [markAttendance] at h
  | some loc =>
  cases hs : store.sessions sid with
  | none => simp [markAttendance, hs] at h
  | some session =>
  by_cases h1 : expiredCheck now session.expiresAt = true
  · simp [markAttendance, hs, markWithSession, h1] at h
  · by_cases h2 : (locationCheckOf loc session).valid = false
    · simp [markAttendance, hs, markWithSession, h1, h2] at h
    · by_cases h3 : hasExisting store.attendance sid stid = true
      · simp [markAttendance, hs, markWithSession, h1, h2, h3] at h
      · have hv : (locationCheckOf loc session).valid = true := by
          rwa [Bool.not_eq_false] at h2
        have hcn : cn = session.courseName ∧ d = (locationCheckOf loc session).distance := by
          have := h
          simp [markAttendance, hs, markWithSession, h1, h2, h3] at this
          exact ⟨this.1.symm, this.2.symm⟩
        refine ⟨sid, stid, loc, session, rfl, rfl, rfl, hs,
          by simpa using h1, hv, by simpa using h3, hcn.1, hcn.2, ?_⟩
        simp [markAttendance, hs, markWithSession, h1, h2, h3]

/-- An immediate re-scan after a successful mark is reported as already
marked and changes nothing. -/
lemma markAttendance_rescan (store : Store) (req : MarkReq) (now : ℝ)
    (cn : String) (d : ℤ)
    (h : (markAttendance store req now).1 = MarkOutcome.success cn d) :
    (markAttendance (markAttendance store req now).2 req now).1 = MarkOutcome.alreadyMarked ∧
    (markAttendance (markAttendance store req now).2 req now).2 = (markAttendance store req now).2 := by
  obtain ⟨sid, stid, loc, session, hsid, hstid, hloc, hs, he, hv, hdup, -, -, hstore⟩ :=
    markAttendance_success_inv store req now cn d h
  rcases req with ⟨os, ot, oe, ol⟩
  simp only at hsid hstid hloc
  subst hsid; subst hstid; subst hloc
  rw [hstore]
  have hdup2 : hasExisting (store.attendance ++
      [markRecord sid stid oe session.courseName now
        (locationCheckOf loc session).distance loc]) sid stid = true :=
    hasExisting_append_markRecord _ _ _ _ _ _ _ _
  constructor
  · simp [markAttendance, hs, markWithSession, he, hv, hdup2]
  · simp [markAttendance, hs, markWithSession, he, hv, hdup2]

/-- C1: under sequential processing the attendance store never holds more
than one record per (sessionId, studentId) pair, and an immediate re-scan
after a successful admission is answered with the already-marked outcome
with no second record inserted. -/
theorem C1_single_admission_per_pair :
    (∀ (store : Store), pairUnique store.attendance →
      ∀ (reqs : List (MarkReq × ℝ)), pairUnique (runMarks store reqs).attendance) ∧
    (∀ (store : Store) (req : MarkReq) (now : ℝ) (cn : String) (d : ℤ),
      (markAttendance store req now).1 = MarkOutcome.success cn d →
      (markAttendance (markAttendance store req now).2 req now).1 = MarkOutcome.alreadyMarked ∧
      (markAttendance (markAttendance store req now).2 req now).2 = (markAttendance store req now).2) :=
  ⟨fun store h reqs => runMarks_pairUnique reqs store h,
   fun store req now cn d h => markAttendance_rescan store req now cn d h⟩

/-- C4: a verification attempt on a session that is both expired and whose
claimant position fails the geofence is answered with the expired outcome,
not the out-of-range outcome: the handler checks expiry first. -/
theorem C4_expired_checked_before_geofence (store : Store) (req : MarkReq) (now : ℝ)
    (sid stid : String) (loc : Coord) (session : SessionDoc)
    (hsid : req.sessionId = some sid) (hstid : req.studentId = some stid)
    (hloc : req.location = some loc)
    (hs : store.sessions sid = some session)
    (hexp : expiredCheck now session.expiresAt = true)
    (hgeo : (locationCheckOf loc session).valid = false) :
    (markAttendance store req now).1 = MarkOutcome.expired := by
  rcases req with ⟨os, ot, oe, ol⟩
  simp only at hsid hstid hloc
  subst hsid; subst hstid; subst hloc
  simp [markAttendance, hs, markWithSession, hexp]

/-- Session fixture for the C4 witness: expired at time 0 and with radius -1,
so a claimant at the origin is simultaneously out of range. -/
def c4Doc : SessionDoc :=
  { sessionId := "S1", courseName := "CS", teacherId := "T1", teacherEmail := none,
    location := { latitude := 0, longitude := 0, radiusMeters := some (-1) },
    expiresAt := some 0, createdAt := 0, active := true }

/-- Store fixture for the C4 witness. -/
def c4Store : Store :=
  { sessions := setDoc emptyStore.sessions "S1" c4Doc, attendance := [] }

/-- Mark request fixture for the C4 witness. -/
def c4Req : MarkReq :=
  { sessionId := some "S1", studentId := some "STU", studentEmail := none,
    location := some { latitude := 0, longitude := 0 } }

/-- Witness for C4: at time 1 the fixture session is expired and the claimant
out of range, and the outcome is the expired one. -/
theorem C4_expired_checked_before_geofence_witness :
    (markAttendance c4Store c4Req 1).1 = MarkOutcome.expired :=
  C4_expired_checked_before_geofence c4Store c4Req 1 "S1" "STU"
    { latitude := 0, longitude := 0 } c4Doc rfl rfl rfl
    (by simp [c4Store, setDoc])
    (by simp [expiredCheck, c4Doc])
    (by simp [locationCheckOf, verifyLocation, allowedRadius, c4Doc,
         calculateDistance_self])

/-- The mark pipeline never reads the active flag of the session document. -/
lemma markWithSession_active (att : List AttendanceRecord) (sid stid : String)
    (se : Option String) (loc : Coord) (d : SessionDoc) (b : Bool) (now : ℝ) :
    markWithSession att sid stid se loc { d with active := b } now =
      markWithSession att sid stid se loc d now := rfl

/-- C9: the verification outcome is independent of the active flag: two
stores whose stored session differs only in active give every attempt the
same outcome and the same attendance; in particular an inactive but
unexpired, in-range, not-yet-marked claimant is still admitted. -/
theorem C9_active_flag_independence :
    (∀ (store : Store) (sid : String) (doc : SessionDoc) (b1 b2 : Bool)
        (req : MarkReq) (now : ℝ),
      (markAttendance { store with
          sessions := setDoc store.sessions sid { doc with active := b1 } } req now).1 =
        (markAttendance { store with
          sessions := setDoc store.sessions sid { doc with active := b2 } } req now).1 ∧
      (markAttendance { store with
          sessions := setDoc store.sessions sid { doc with active := b1 } } req now).2.attendance =
        (markAttendance { store with
          sessions := setDoc store.sessions sid { doc with active := b2 } } req now).2.attendance) ∧
    (∀ (store : Store) (req : MarkReq) (now : ℝ) (sid stid : String) (loc : Coord)
        (session : SessionDoc),
      req.sessionId = some sid → req.studentId = some stid → req.location = some loc →
      store.sessions sid = some session → session.active = false →
      expiredCheck now session.expiresAt = false →
      (locationCheckOf loc session).valid = true →
      hasExisting store.attendance sid stid = false →
      (markAttendance store req now).1 =
        MarkOutcome.success session.courseName (locationCheckOf loc session).distance) := by
  constructor
  · intro store sid doc b1 b2 req now
    rcases req with ⟨os, ot, oe, ol⟩
    cases os with
    | none => exact ⟨rfl, rfl⟩
    | some rsid =>
    cases ot with
    | none => exact ⟨rfl, rfl⟩
    | some rstid =>
    cases ol with
    | none => exact ⟨rfl, rfl⟩
    | some rloc =>
    by_cases hk : rsid = sid
    · subst hk
      constructor <;>
        simp [markAttendance, setDoc, markWithSession_active]
    · cases hs : store.sessions rsid with
      | none => constructor <;> simp [markAttendance, setDoc, hk, hs]
      | some session => constructor <;> simp [markAttendance, setDoc, hk, hs]
  · intro store req now sid stid loc session hsid hstid hloc hs hact hexp hgeo hdup
    rcases req with ⟨os, ot, oe, ol⟩
    simp only at hsid hstid hloc
    subst hsid; subst hstid; subst hloc
    simp [markAttendance, hs, markWithSession, hexp, hgeo, hdup]

/-- C10: the creation handler accepts a request without expiresAt (only
sessionId, courseName, teacherId and location are required) and stores the
session with the expiry absent; the expiry comparison against an absent
expiry is never true, so such a session can never produce the expired
outcome, at any time. -/
theorem C10_missing_expiry_never_expires :
    (∀ t : ℝ, expiredCheck t none = false) ∧
    (∀ (store : Store) (now : ℝ) (sid cn tid : String) (te : Option String)
        (loc : GeoLocation),
      (createSession store
          (SessionReq.mk (some sid) (some cn) (some tid) te (some loc) none) now).1 =
        CreateResult.success sid ∧
      ((createSession store
          (SessionReq.mk (some sid) (some cn) (some tid) te (some loc) none) now).2.sessions
            sid).map SessionDoc.expiresAt = some none) ∧
    (∀ (store : Store) (sid : String) (session : SessionDoc) (req : MarkReq) (now : ℝ),
      store.sessions sid = some session → session.expiresAt = none →
      req.sessionId = some sid →
      (markAttendance store req now).1 ≠ MarkOutcome.expired) := by
  refine ⟨fun t => rfl, ?_, ?_⟩
  · intro store now sid cn tid te loc
    exact ⟨rfl, by simp [createSession, setDoc]⟩
  · intro store sid session req now hs hexp hsid
    rcases req with ⟨os, ot, oe, ol⟩
    simp only at hsid
    subst hsid
    cases ot with
    | none => simp [markAttendance]
    | some stid =>
    cases ol with
    | none => simp [markAttendance]
    | some loc =>
    have he : expiredCheck now session.expiresAt = false := by rw [hexp]; rfl
    by_cases h2 : (locationCheckOf loc session).valid = false
    · simp [markAttendance, hs, markWithSession, he, h2]
    · by_cases h3 : hasExisting store.attendance sid stid = true
      · simp [markAttendance, hs, markWithSession, he, h2, h3]
      · simp [markAttendance, hs, markWithSession, he, h2, h3]

/-- Session-creation request fixture: id S1, course Algorithms. -/
def c3ReqA : SessionReq :=
  { sessionId := some "S1", courseName := some "Algorithms", teacherId := some "T1",
    teacherEmail := none,
    location := some { latitude := 0, longitude := 0, radiusMeters := none },
    expiresAt := none }

/-- Second creation request with the same id S1 but course Chemistry. -/
def c3ReqB : SessionReq := { c3ReqA with courseName := some "Chemistry" }

/-- C3 counterexample: creating session S1 and then creating S1 again does
not fail with a duplicate-id error and does not leave the stored record
unchanged: the second create succeeds and overwrites the course name. -/
theorem C3_create_overwrites_counterexample :
    ((createSession emptyStore c3ReqA 0).2.sessions "S1").map SessionDoc.courseName =
        some "Algorithms" ∧
    (createSession (createSession emptyStore c3ReqA 0).2 c3ReqB 1).1 =
        CreateResult.success "S1" ∧
    ((createSession (createSession emptyStore c3ReqA 0).2 c3ReqB 1).2.sessions "S1").map
        SessionDoc.courseName = some "Chemistry" := by
  refine ⟨?_, rfl, ?_⟩ <;> simp [createSession, c3ReqA, c3ReqB, setDoc]

/-- C3 amended: creation never fails for an existing id; the write is an
overwriting set, so the stored record for that id becomes the new one (last
write wins) while every other id is untouched; a fresh id stores the new
record the same way. -/
theorem C3_create_last_write_wins (store : Store) (req : SessionReq) (now : ℝ)
    (sid cn tid : String) (loc : GeoLocation)
    (hsid : req.sessionId = some sid) (hcn : req.courseName = some cn)
    (htid : req.teacherId = some tid) (hloc : req.location = some loc) :
    (createSession store req now).1 = CreateResult.success sid ∧
    (createSession store req now).2.sessions sid = some
      { sessionId := sid, courseName := cn, teacherId := tid,
        teacherEmail := req.teacherEmail, location := loc,
        expiresAt := req.expiresAt, createdAt := now, active := true } ∧
    ∀ k, k ≠ sid → (createSession store req now).2.sessions k = store.sessions k := by
  rcases req with ⟨os, ocn, otid, ote, ol, oex⟩
  simp only at hsid hcn htid hloc
  subst hsid; subst hcn; subst htid; subst hloc
  refine ⟨rfl, by simp [createSession, setDoc], ?_⟩
  intro k hk
  simp [createSession, setDoc, hk]

/-- Witness for C3 amended, at the concrete request c3ReqA on the empty store. -/
theorem C3_create_last_write_wins_witness :
    (createSession emptyStore c3ReqA 0).1 = CreateResult.success "S1" ∧
    (createSession emptyStore c3ReqA 0).2.sessions "S1" = some
      { sessionId := "S1", courseName := "Algorithms", teacherId := "T1",
        teacherEmail := c3ReqA.teacherEmail,
        location := { latitude := 0, longitude := 0, radiusMeters := none },
        expiresAt := c3ReqA.expiresAt, createdAt := 0, active := true } ∧
    ∀ k, k ≠ "S1" → (createSession emptyStore c3ReqA 0).2.sessions k =
      emptyStore.sessions k :=
  C3_create_last_write_wins emptyStore c3ReqA 0 "S1" "Algorithms" "T1"
    { latitude := 0, longitude := 0, radiusMeters := none } rfl rfl rfl rfl

/-- Session fixture for C5: stored radius is the negative number -1. -/
def c5Doc : SessionDoc :=
  { sessionId := "S1", courseName := "Physics", teacherId := "T1", teacherEmail := none,
    location := { latitude := 0, longitude := 0, radiusMeters := some (-1) },
    expiresAt := some 10, createdAt := 0, active := true }

/-- Store fixture for C5. -/
def c5Store : Store :=
  { sessions := setDoc emptyStore.sessions "S1" c5Doc, attendance := [] }

/-- Mark request fixture for C5: the claimant stands exactly at the origin. -/
def c5Req : MarkReq :=
  { sessionId := some "S1", studentId := some "STU", studentEmail := none,
    location := some { latitude := 0, longitude := 0 } }

/-- C5 counterexample: for the stored radius -1 the effective radius is -1,
not the default 50, and a claimant at the exact session origin (distance 0,
within 50 m) is rejected as out of range with allowed radius -1. -/
theorem C5_negative_radius_counterexample :
    allowedRadius c5Doc.location = -1 ∧ allowedRadius c5Doc.location ≠ 50 ∧
    (markAttendance c5Store c5Req 0).1 = MarkOutcome.outOfRange 0 (-1) := by
  have hrad : allowedRadius c5Doc.location = -1 := by norm_num [allowedRadius, c5Doc]
  have hexp : expiredCheck (0 : ℝ) (some 10 : Option ℝ) = false := by
    simp [expiredCheck]
  have hval : (locationCheckOf { latitude := 0, longitude := 0 } c5Doc).valid = false := by
    simp [locationCheckOf, verifyLocation, allowedRadius, c5Doc, calculateDistance_self]
  refine ⟨hrad, by rw [hrad]; norm_num, ?_⟩
  simp [markAttendance, c5Store, c5Req, setDoc, markWithSession, hexp, hval,
    locationCheckOf, verifyLocation, allowedRadius, c5Doc, calculateDistance_self]

/-- C5 amended: an absent or zero radius falls back to the default 50; a
negative radius is not replaced by the default but used as it is, and since
the computed distance is a non-negative integer, such a session rejects
every claimant position as out of range. -/
theorem C5_radius_default_policy (loc : GeoLocation) :
    (loc.radiusMeters = none → allowedRadius loc = 50) ∧
    (loc.radiusMeters = some 0 → allowedRadius loc = 50) ∧
    (∀ r : ℝ, loc.radiusMeters = some r → r < 0 →
      allowedRadius loc = r ∧
      ∀ slat slon : ℝ,
        (verifyLocation slat slon loc.latitude loc.longitude
          (allowedRadius loc)).valid = false) := by
  refine ⟨fun h => by simp [allowedRadius, h], fun h => by simp [allowedRadius, h], ?_⟩
  intro r hr hneg
  have hra : allowedRadius loc = r := by simp [allowedRadius, hr, hneg.ne]
  refine ⟨hra, fun slat slon => ?_⟩
  have hd : (0 : ℝ) ≤ (calculateDistance slat slon loc.latitude loc.longitude : ℝ) := by
    exact_mod_cast calculateDistance_nonneg slat slon loc.latitude loc.longitude
  simp only [verifyLocation, hra, decide_eq_false_iff_not, not_le]
  linarith

/-- Session fixture for C7: origin latitude 999, far outside [-90, 90]. -/
def c7Doc : SessionDoc :=
  { sessionId := "S1", courseName := "Databases", teacherId := "T1", teacherEmail := none,
    location := { latitude := 999, longitude := 0, radiusMeters := none },
    expiresAt := some 10, createdAt := 0, active := true }

/-- Store fixture for C7. -/
def c7Store : Store :=
  { sessions := setDoc emptyStore.sessions "S1" c7Doc, attendance := [] }

/-- Mark request fixture for C7: claimant reports the malformed latitude 999. -/
def c7Req : MarkReq :=
  { sessionId := some "S1", studentId := some "STU", studentEmail := none,
    location := some { latitude := 999, longitude := 0 } }

/-- C7 counterexample: a reported latitude of 999 is not rejected by any
validation: the geofence distance is computed from the malformed values and
the claimant is admitted, recording latitude 999 in the ledger. -/
theorem C7_malformed_coordinates_counterexample :
    (markAttendance c7Store c7Req 0).1 = MarkOutcome.success "Databases" 0 ∧
    (markAttendance c7Store c7Req 0).2.attendance.map AttendanceRecord.latitude =
      [999] := by
  have hexp : expiredCheck (0 : ℝ) (some 10 : Option ℝ) = false := by
    simp [expiredCheck]
  have hval : (locationCheckOf { latitude := 999, longitude := 0 } c7Doc).valid = true := by
    simp [locationCheckOf, verifyLocation, allowedRadius, c7Doc, calculateDistance_self]
  constructor <;>
    simp [markAttendance, c7Store, c7Req, setDoc, markWithSession, hexp, hval,
      hasExisting, locationCheckOf, verifyLocation, allowedRadius, c7Doc,
      calculateDistance_self, markRecord]

/-- C7 amended: the mark handler validates only the presence of fields, never
the coordinate values: an attempt with any coordinate values present is
never rejected as malformed, and when the session is found, unexpired and
the geofence fails, the rejection carries a distance computed directly from
those values. -/
theorem C7_no_coordinate_validation (store : Store) (now : ℝ) (sid stid : String)
    (se : Option String) (lat lon : ℝ) :
    (markAttendance store
        (MarkReq.mk (some sid) (some stid) se (some (Coord.mk lat lon))) now).1 ≠
      MarkOutcome.missingFields ∧
    (∀ session : SessionDoc, store.sessions sid = some session →
      expiredCheck now session.expiresAt = false →
      (locationCheckOf (Coord.mk lat lon) session).valid = false →
      (markAttendance store
          (MarkReq.mk (some sid) (some stid) se (some (Coord.mk lat lon))) now).1 =
        MarkOutcome.outOfRange
          (calculateDistance lat lon session.location.latitude session.location.longitude)
          (allowedRadius session.location)) := by
  constructor
  · cases hs : store.sessions sid with
    | none => simp [markAttendance, hs]
    | some session =>
      by_cases h1 : expiredCheck now session.expiresAt = true
      · simp [markAttendance, hs, markWithSession, h1]
      · by_cases h2 : (locationCheckOf (Coord.mk lat lon) session).valid = false
        · simp [markAttendance, hs, markWithSession, h1, h2]
        · by_cases h3 : hasExisting store.attendance sid stid = true
          · simp [markAttendance, hs, markWithSession, h1, h2, h3]
          · simp [markAttendance, hs, markWithSession, h1, h2, h3]
  · intro session hs hexp hgeo
    have hlt : allowedRadius session.location <
        (calculateDistance lat lon session.location.latitude
          session.location.longitude : ℝ) := by
      simpa [locationCheckOf, verifyLocation, decide_eq_false_iff_not, not_le] using hgeo
    simp [markAttendance, hs, markWithSession, hexp, locationCheckOf, verifyLocation, hlt]

/-- Session fixture for the C2 race: unexpired and centered at the origin. -/
def c2Doc : SessionDoc :=
  { sessionId := "S1", courseName := "CS", teacherId := "T1", teacherEmail := none,
    location := { latitude := 0, longitude := 0, radiusMeters := none },
    expiresAt := some 10, createdAt := 0, active := true }

/-- Record written by the first racing attempt (at time 0). -/
def raceRec1 : AttendanceRecord :=
  markRecord "S1" "STU" none "CS" 0 0 { latitude := 0, longitude := 0 }

/-- Record written by the second racing attempt (at time 1). -/
def raceRec2 : AttendanceRecord :=
  markRecord "S1" "STU" none "CS" 1 0 { latitude := 0, longitude := 0 }

/-- C2: the duplicate guard and the insert are two separate storage
operations with no uniqueness constraint, so two concurrent attempts for the
same (sessionId, studentId) can interleave as check-check-write-write: both
duplicate checks run against the shared still-empty collection and pass, so
each invocation takes the success branch and performs its write; after both
writes the pair has two records, where the claim requires that exactly one
of the concurrent invocations succeed. -/
theorem C2_concurrent_record_race :
    (markWithSession [] "S1" "STU" none { latitude := 0, longitude := 0 } c2Doc 0).1 =
      MarkOutcome.success "CS" 0 ∧
    (markWithSession [] "S1" "STU" none { latitude := 0, longitude := 0 } c2Doc 1).1 =
      MarkOutcome.success "CS" 0 ∧
    (markWithSession [] "S1" "STU" none { latitude := 0, longitude := 0 } c2Doc 0).2 =
      [raceRec1] ∧
    (markWithSession [] "S1" "STU" none { latitude := 0, longitude := 0 } c2Doc 1).2 =
      [raceRec2] ∧
    pairCount (([] ++ [raceRec1]) ++ [raceRec2]) "S1" "STU" = 2 := by
  have hexp0 : expiredCheck (0 : ℝ) (some 10 : Option ℝ) = false := by simp [expiredCheck]
  have hexp1 : expiredCheck (1 : ℝ) (some 10 : Option ℝ) = false := by
    simp [expiredCheck]
  have hval : (locationCheckOf { latitude := 0, longitude := 0 } c2Doc).valid = true := by
    simp [locationCheckOf, verifyLocation, allowedRadius, c2Doc, calculateDistance_self]
  refine ⟨?_, ?_, ?_, ?_, ?_⟩ <;>
    simp [markWithSession, hexp0, hexp1, hval, hasExisting, locationCheckOf,
      verifyLocation, allowedRadius, c2Doc, calculateDistance_self, raceRec1, raceRec2,
      markRecord, pairCount, pairMatch]

end SmartAttendance
